import Mathlib

/-!
Verification development for `kats/data/utils.py` (Kats data utilities).

The Python module is embedded shallowly:

* pandas `DataFrame`s become `PandasDF`: an ordered list of labelled columns.
  The default integer column labels produced by `pd.DataFrame` on a bare
  numpy array and the string label `"time"` are both values of `Label`.
* numpy's global random generator becomes an explicit state-passing
  interface `RNG`: `seedFn` models `np.random.seed`, `randint1` a single
  `np.random.randint(lo, hi)` draw (with numpy's documented guarantee that
  the draw lies in `[lo, hi)` when `lo < hi` carried as `randint1_mem`),
  and `randn1` a single standard-normal draw.  Batched numpy draws
  (`size=(ndim, 1)`, `randn(n_days)`) are sequences of single draws.
* machine floats are modelled as elements of a linear ordered field `R`
  (instantiated at `ℝ` for the claims about the value formula, where
  `scipy.special.expit` is the real logistic function).
* `np.random.randint` raising `ValueError` on an empty range is modelled by
  the generator returning `none`.
-/

/-- Column label of a pandas DataFrame: either a positional integer label
(the default `RangeIndex` labels that `pd.DataFrame` assigns to a bare numpy
array) or a string label such as `"time"`. -/
inductive Label : Type
  | nat : ℕ → Label
  | str : String → Label
deriving DecidableEq

/-- Cell of a frame produced by this module: either a numeric value or a
timestamp taken from the caller-supplied time sequence. -/
inductive Cell (R T : Type) : Type
  | val : R → Cell R T
  | stamp : T → Cell R T
deriving DecidableEq

/-- Pandas DataFrame, modelled as its ordered list of labelled columns. -/
structure PandasDF (C : Type) : Type where
  cols : List (Label × List C)
deriving DecidableEq

/-- Ordered list of column labels of a frame. -/
def PandasDF.labels {C : Type} (df : PandasDF C) : List Label :=
  df.cols.map Prod.fst

/-- Entry of a frame at column position `j` and row position `t`. -/
def PandasDF.entry {C : Type} (df : PandasDF C) (j t : ℕ) (dflt : C) : C :=
  ((df.cols.getD j (Label.nat 0, [])).2).getD t dflt

/-- Whether a frame already has a column with the given label. -/
def hasLabel {C : Type} (df : PandasDF C) (l : Label) : Bool :=
  df.cols.any (fun p => decide (p.1 = l))

/-- Pandas column assignment `df[l] = v`: replaces the column in place if the
label exists, otherwise appends a new column at the end (the behaviour used by
`no_trend_data["time"] = time` and `trend_data["time"] = time`). -/
def setCol {C : Type} (df : PandasDF C) (l : Label) (v : List C) : PandasDF C :=
  if hasLabel df l then ⟨df.cols.map (fun p => if p.1 = l then (l, v) else p)⟩
  else ⟨df.cols ++ [(l, v)]⟩

/-- Pandas columns assignment `df.columns = new` (used by
`df.columns = ["time", "y"]` in `load_air_passengers`): relabels positionally
when the lengths agree, and raises a length-mismatch `ValueError` otherwise,
modelled by `none`. -/
def setColumns {C : Type} (df : PandasDF C) (new : List Label) : Option (PandasDF C) :=
  if new.length = df.cols.length then some ⟨new.zip (df.cols.map Prod.snd)⟩ else none

/-- `pd.DataFrame` applied to an `n × nd` numeric array given entrywise by
`f row col`: the `nd` columns receive the default integer labels `0 .. nd-1`. -/
def dfOfTable {R T : Type} (n nd : ℕ) (f : ℕ → ℕ → R) : PandasDF (Cell R T) :=
  ⟨(List.range nd).map (fun j => (Label.nat j, (List.range n).map (fun i => Cell.val (f i j))))⟩

/-- Modelled from the spec: `TimeSeriesData` (defined in `kats.consts`, which
is not under `src/`) is the external time-series value object; per the spec it
is a thin wrapper that consumes the tabular frame with its `"time"` column,
so it is modelled as a wrapper holding the frame. -/
structure TimeSeriesData (C : Type) : Type where
  df : PandasDF C
deriving DecidableEq

/-- Interface to numpy's global pseudo-random generator, passed as explicit
state.  `seedFn k` is the state set by `np.random.seed(k)`; `randint1 lo hi`
is one draw of `np.random.randint(lo, hi)`; `randn1` is one draw of
`np.random.randn()`.  `randint1_mem` is numpy's documented contract that a
`randint` draw over a nonempty range `[lo, hi)` lies in that range. -/
structure RNG (R σ : Type) : Type where
  seedFn : ℕ → σ
  randint1 : ℤ → ℤ → σ → ℤ × σ
  randn1 : σ → R × σ
  randint1_mem : ∀ lo hi s, lo < hi →
    lo ≤ (randint1 lo hi s).1 ∧ (randint1 lo hi s).1 < hi

/-- `np.random.randint(lo, hi, size=(k, 1))`: `k` sequential draws. -/
def drawIntVec {R σ : Type} (rng : RNG R σ) (lo hi : ℤ) : ℕ → σ → List ℤ × σ
  | 0, s => ([], s)
  | k + 1, s =>
    let p := rng.randint1 lo hi s
    let q := drawIntVec rng lo hi k p.2
    (p.1 :: q.1, q.2)

/-- `np.random.randn(k)`: `k` sequential standard-normal draws. -/
def drawRandnVec {R σ : Type} (rng : RNG R σ) : ℕ → σ → List R × σ
  | 0, s => ([], s)
  | k + 1, s =>
    let p := rng.randn1 s
    let q := drawRandnVec rng k p.2
    (p.1 :: q.1, q.2)

/-- The list comprehension `[np.random.randn(c) for i in range(r)]`:
`r` rows of `c` standard-normal draws each, drawn row by row. -/
def drawRandnMat {R σ : Type} (rng : RNG R σ) : ℕ → ℕ → σ → List (List R) × σ
  | 0, _, s => ([], s)
  | r + 1, c, s =>
    let p := drawRandnVec rng c s
    let q := drawRandnMat rng r c p.2
    (p.1 :: q.1, q.2)

/-- The resource loader `load_data`: `pkgutil.get_data` plus CSV parsing are
external I/O, abstracted as an environment `env` mapping a file name to the
parsed tabular frame of that bundled resource. -/
def load_data {C : Type} (env : String → PandasDF C) (file_name : String) : PandasDF C :=
  env file_name

/-- `load_air_passengers`: loads the fixed resource `"air_passengers.csv"`,
positionally renames its columns to `["time", "y"]` (which raises, i.e.
yields `none`, unless the frame has exactly two columns), and wraps the
result in `TimeSeriesData` when `return_ts` is true. -/
def load_air_passengers {C : Type} (env : String → PandasDF C) (return_ts : Bool) :
    Option (TimeSeriesData C ⊕ PandasDF C) :=
  match setColumns (load_data env "air_passengers.csv") [Label.str "time", Label.str "y"] with
  | some df => some (if return_ts then Sum.inl ⟨df⟩ else Sum.inr df)
  | none => none

/-- `gen_no_trend_data_ndim`: `np.ones((n_days, ndim))` times a batched draw
`np.random.randint(1000, size=(1, ndim))` broadcasts the `j`-th drawn constant
over the whole `j`-th column; the `"time"` column is then appended.  The
ambient generator state `s` is consumed without reseeding. -/
def gen_no_trend_data_ndim {R σ T : Type} [LinearOrderedField R] (rng : RNG R σ)
    (time : List T) (ndim : ℕ) (s : σ) : TimeSeriesData (Cell R T) × σ :=
  (⟨setCol
      (dfOfTable time.length ndim
        (fun _ j => (((drawIntVec rng 0 1000 ndim s).1.getD j 0 : ℤ) : R)))
      (Label.str "time") (time.map Cell.stamp)⟩,
   (drawIntVec rng 0 1000 ndim s).2)

/-- The per-entry value of the trend generator, read off the source line
`data = (initial + trend * ix + trend_change * (ix - t_change) * expit(ix - t_change))
* (1 - seasonality * (ix % 7 >= 5)) * np.cumprod(1 + noise[i] * np.random.randn(n_days))`
with `noise[i] = 1e-3`; the cumulative product at step `t` multiplies the
noise factors of steps `0 .. t`. -/
def trendValue {R : Type} [LinearOrderedField R] (sig : R → R) (seasonality : R)
    (initial trend_change trend t_change : ℤ) (noiseRow : List R) (t : ℕ) : R :=
  ((initial : R) + (trend : R) * (t : R)
      + (trend_change : R) * ((t : R) - (t_change : R)) * sig ((t : R) - (t_change : R)))
    * (1 - seasonality * (if 5 ≤ t % 7 then (1 : R) else 0))
    * ((noiseRow.take (t + 1)).map (fun z => 1 + (1 / 1000 : R) * z)).prod

/-- First batched draw of `gen_trend_data_ndim`:
`initial = np.random.randint(9000., 10000., size=(ndim, 1))`, performed on the
state set by `np.random.seed(20)`. -/
def trendP1 {R σ : Type} (rng : RNG R σ) (ndim : ℕ) : List ℤ × σ :=
  drawIntVec rng 9000 10000 ndim (rng.seedFn 20)

/-- Second batched draw: `np.random.randint(60, size=(ndim, 1))` (negated at
its use sites to form `trend_change`). -/
def trendP2 {R σ : Type} (rng : RNG R σ) (ndim : ℕ) : List ℤ × σ :=
  drawIntVec rng 0 60 ndim (trendP1 rng ndim).2

/-- Third batched draw: `trend = np.random.randint(2., 6., size=(ndim, 1))`. -/
def trendP3 {R σ : Type} (rng : RNG R σ) (ndim : ℕ) : List ℤ × σ :=
  drawIntVec rng 2 6 ndim (trendP2 rng ndim).2

/-- Fourth batched draw:
`t_change = np.random.randint(int(0.4 * n_days), int(0.7 * n_days), size=(ndim, 1))`;
`int(0.4 * n)` and `int(0.7 * n)` are modelled with exact arithmetic as the
floors `2 * n / 5` and `7 * n / 10`. -/
def trendP4 {R σ : Type} (rng : RNG R σ) (n ndim : ℕ) : List ℤ × σ :=
  drawIntVec rng ((2 * n) / 5 : ℕ) ((7 * n) / 10 : ℕ) ndim (trendP3 rng ndim).2

/-- Fifth set of draws: `[np.random.randn(n_days) for i in range(ndim)]`. -/
def trendP5 {R σ : Type} (rng : RNG R σ) (n ndim : ℕ) : List (List R) × σ :=
  drawRandnMat rng ndim n (trendP4 rng n ndim).2

/-- `gen_trend_data_ndim`.  The body starts with `np.random.seed(20)`, so the
incoming generator state `s0` is never consumed; the parameter
`change_smoothness` is accepted but never used, exactly as in the source.
`pd.DataFrame(data.T)` puts time steps in rows and dimensions in columns with
default integer labels, and `trend_data["time"] = time` appends the `"time"`
column.  The draw of `t_change` from an empty range raises `ValueError` in
numpy, modelled by the `none` result. -/
def gen_trend_data_ndim {R σ T : Type} [LinearOrderedField R] (rng : RNG R σ)
    (sig : R → R) (time : List T) (seasonality : R) (change_smoothness : R)
    (ndim : ℕ) (s0 : σ) : Option (TimeSeriesData (Cell R T) × List ℤ) × σ :=
  if (2 * time.length) / 5 < (7 * time.length) / 10 then
    (some
      (⟨setCol
          (dfOfTable time.length ndim
            (fun i j =>
              trendValue sig seasonality ((trendP1 rng ndim).1.getD j 0)
                (-((trendP2 rng ndim).1.getD j 0)) ((trendP3 rng ndim).1.getD j 0)
                ((trendP4 rng time.length ndim).1.getD j 0)
                ((trendP5 rng time.length ndim).1.getD j []) i))
          (Label.str "time") (time.map Cell.stamp)⟩,
        (trendP4 rng time.length ndim).1),
     (trendP5 rng time.length ndim).2)
  else (none, (trendP3 rng ndim).2)

/-- Frame carried by a successful trend-generator result (empty frame on
failure). -/
def trendFrame {R T : Type} (r : Option (TimeSeriesData (Cell R T) × List ℤ)) :
    PandasDF (Cell R T) :=
  (r.map (fun x => x.1.df)).getD ⟨[]⟩

/-- Change-point list carried by a successful trend-generator result. -/
def changePoints {R T : Type} (r : Option (TimeSeriesData (Cell R T) × List ℤ)) : List ℤ :=
  (r.map Prod.snd).getD []

/-- `scipy.special.expit`, the logistic function used by the source. -/
noncomputable def expit (x : ℝ) : ℝ := 1 / (1 + Real.exp (-x))

/-- Written from the spec's words: `sigmoid(x) = 1/(1+exp(-x))`. -/
noncomputable def sigmoid (x : ℝ) : ℝ := 1 / (1 + Real.exp (-x))

/-- Written from the spec's words, for the refinement claim about the value
formula: `value(t) = (initial + slope*t + trend_change*(t - change_point) *
sigmoid(t - change_point)) * (1 - seasonality * weekend_indicator(t)) *
cumulative_noise(t)`, with `weekend_indicator(t) = 1` when `t mod 7 >= 5` and
`cumulative_noise(t)` the running product of `(1 + 0.001 * draw)` over steps
`0 .. t`. -/
noncomputable def spec_value (initial slope trend_change change_point : ℤ)
    (seasonality : ℝ) (noise : List ℝ) (t : ℕ) : ℝ :=
  ((initial : ℝ) + (slope : ℝ) * (t : ℝ)
      + (trend_change : ℝ) * ((t : ℝ) - (change_point : ℝ))
          * sigmoid ((t : ℝ) - (change_point : ℝ)))
    * (1 - seasonality * (if 5 ≤ t % 7 then (1 : ℝ) else 0))
    * Finset.prod (Finset.range (t + 1)) (fun k => 1 + (0.001 : ℝ) * noise.getD k 0)

/-- A degenerate but contract-satisfying generator: every `randint` draw
returns the lower bound, every normal draw returns `0`, used to instantiate
theorems at concrete inputs. -/
def constRng (R : Type) [LinearOrderedField R] : RNG R Unit where
  seedFn := fun _ => ()
  randint1 := fun lo _ s => (lo, s)
  randn1 := fun s => (0, s)
  randint1_mem := fun lo hi s h => ⟨le_refl lo, h⟩

/-- A contract-satisfying generator whose draws depend on a counter state, so
that consuming the stream changes later draws. -/
def counterRng : RNG ℚ ℕ where
  seedFn := fun k => k
  randint1 := fun lo hi s => (max lo (min (lo + (s : ℤ)) (hi - 1)), s + 1)
  randn1 := fun s => (0, s + 1)
  randint1_mem := fun lo hi s h => ⟨le_max_left _ _, by
    show max lo (min (lo + (s : ℤ)) (hi - 1)) < hi
    omega⟩

/-- A concrete three-element timestamp sequence used to instantiate theorems;
for `n = 3` the change-point range `[int(0.4 n), int(0.7 n)) = [1, 2)` is
nonempty. -/
def threeUnits : List Unit := [(), (), ()]

/-- A concrete resource environment whose `"air_passengers.csv"` frame has
exactly two columns. -/
def envTwo : String → PandasDF (Cell ℚ Unit) :=
  fun _ => ⟨[(Label.nat 0, [Cell.val 1]), (Label.nat 1, [Cell.val 2])]⟩

/-- A concrete resource environment whose `"air_passengers.csv"` frame has
three columns, exercising the schema-mismatch failure. -/
def envThree : String → PandasDF (Cell ℚ Unit) :=
  fun _ => ⟨[(Label.nat 0, []), (Label.nat 1, []), (Label.nat 2, [])]⟩

/-- C1: two calls of `gen_trend_data_ndim` with identical arguments but
arbitrary (possibly different) incoming global generator states produce
identical output frames and identical change-point lists, because the
function resets the global seed to the constant 20 before drawing. -/
theorem gen_trend_deterministic {R σ T : Type} [LinearOrderedField R] (rng : RNG R σ)
    (sig : R → R) (time : List T) (seasonality change_smoothness : R) (ndim : ℕ)
    (s1 s2 : σ) :
    (gen_trend_data_ndim rng sig time seasonality change_smoothness ndim s1).1
      = (gen_trend_data_ndim rng sig time seasonality change_smoothness ndim s2).1 :=
  rfl

/-- C4: the output of `gen_trend_data_ndim` (result and final generator state)
is identical for any two values of the `change_smoothness` parameter: the
parameter is accepted but never used. -/
theorem gen_trend_smoothness_unused {R σ T : Type} [LinearOrderedField R] (rng : RNG R σ)
    (sig : R → R) (time : List T) (seasonality sm1 sm2 : R) (ndim : ℕ) (s : σ) :
    gen_trend_data_ndim rng sig time seasonality sm1 ndim s
      = gen_trend_data_ndim rng sig time seasonality sm2 ndim s :=
  rfl

/-- C9: `gen_trend_data_ndim` fails (the `ValueError` of drawing from the
empty range `[int(0.4 n), int(0.7 n))`, modelled by `none`) exactly when
`int(0.7 n) <= int(0.4 n)`; in particular it fails for `n = 0` and `n = 1`
and succeeds whenever `int(0.4 n) < int(0.7 n)`. -/
theorem gen_trend_error_iff_empty_range {R σ T : Type} [LinearOrderedField R]
    (rng : RNG R σ) (sig : R → R) (time : List T) (seasonality sm : R) (ndim : ℕ)
    (s : σ) :
    (gen_trend_data_ndim rng sig time seasonality sm ndim s).1 = none
      ↔ (7 * time.length) / 10 ≤ (2 * time.length) / 5 := by
  by_cases h : (2 * time.length) / 5 < (7 * time.length) / 10
  · simp [gen_trend_data_ndim, h]
  · simp [gen_trend_data_ndim, h]
    omega

theorem drawIntVec_length {R σ : Type} (rng : RNG R σ) (lo hi : ℤ) :
    ∀ (k : ℕ) (s : σ), ((drawIntVec rng lo hi k s).1).length = k := by
  intro k
  induction k with
  | zero => intro s; rfl
  | succ k ih => intro s; simp [drawIntVec, ih]

theorem drawIntVec_mem {R σ : Type} (rng : RNG R σ) {lo hi : ℤ} (h : lo < hi) :
    ∀ (k : ℕ) (s : σ) (x : ℤ), x ∈ (drawIntVec rng lo hi k s).1 → lo ≤ x ∧ x < hi := by
  intro k
  induction k with
  | zero => intro s x hx; simp [drawIntVec] at hx
  | succ k ih =>
    intro s x hx
    simp only [drawIntVec, List.mem_cons] at hx
    rcases hx with rfl | hx
    · exact rng.randint1_mem lo hi s h
    · exact ih _ _ hx

theorem drawIntVec_getD_mem {R σ : Type} (rng : RNG R σ) {lo hi : ℤ} (h : lo < hi)
    {k j : ℕ} (s : σ) (hj : j < k) :
    lo ≤ (drawIntVec rng lo hi k s).1.getD j 0 ∧ (drawIntVec rng lo hi k s).1.getD j 0 < hi := by
  have hlen : j < ((drawIntVec rng lo hi k s).1).length := by
    rw [drawIntVec_length]; exact hj
  rw [List.getD_eq_getElem _ _ hlen]
  exact drawIntVec_mem rng h k s _ (List.getElem_mem hlen)

theorem drawRandnVec_length {R σ : Type} (rng : RNG R σ) :
    ∀ (k : ℕ) (s : σ), ((drawRandnVec rng k s).1).length = k := by
  intro k
  induction k with
  | zero => intro s; rfl
  | succ k ih => intro s; simp [drawRandnVec, ih]

theorem drawRandnMat_getD_length {R σ : Type} (rng : RNG R σ) (c : ℕ) :
    ∀ (r : ℕ) (s : σ) (j : ℕ), j < r →
      (((drawRandnMat rng r c s).1).getD j []).length = c := by
  intro r
  induction r with
  | zero => intro s j hj; omega
  | succ r ih =>
    intro s j hj
    match j with
    | 0 => simp [drawRandnMat, drawRandnVec_length]
    | j + 1 =>
      have : (((drawRandnMat rng (r + 1) c s).1).getD (j + 1) [])
          = (((drawRandnMat rng r c (drawRandnVec rng c s).2).1).getD j []) := rfl
      rw [this]
      exact ih _ _ (by omega)

theorem range_map_const {α : Type} (n : ℕ) (a : α) :
    (List.range n).map (fun _ => a) = List.replicate n a := by
  induction n with
  | zero => rfl
  | succ n ih => rw [List.range_succ, List.map_append, ih, List.replicate_succ']; rfl

theorem getD_append_lt {α : Type} (xs ys : List α) (j : ℕ) (d : α) (hj : j < xs.length) :
    (xs ++ ys).getD j d = xs.getD j d := by
  induction xs generalizing j with
  | nil => simp at hj
  | cons a xs ih =>
    match j with
    | 0 => rfl
    | j + 1 => exact ih j (by simpa using hj)

theorem getD_append_last {α : Type} (xs : List α) (y d : α) :
    (xs ++ [y]).getD xs.length d = y := by
  induction xs with
  | nil => rfl
  | cons a xs ih => simpa using ih

theorem getD_range_map {α : Type} (nd j : ℕ) (g : ℕ → α) (d : α) (hj : j < nd) :
    ((List.range nd).map g).getD j d = g j := by
  have hlen : j < ((List.range nd).map g).length := by simpa using hj
  rw [List.getD_eq_getElem _ _ hlen]
  simp

theorem dfOfTable_hasLabel_str {R T : Type} (n nd : ℕ) (f : ℕ → ℕ → R) (a : String) :
    hasLabel (dfOfTable n nd f : PandasDF (Cell R T)) (Label.str a) = false := by
  simp [hasLabel, dfOfTable, List.any_map, Function.comp]

theorem setCol_cols {C : Type} (df : PandasDF C) (l : Label) (v : List C)
    (h : hasLabel df l = false) : (setCol df l v).cols = df.cols ++ [(l, v)] := by
  simp [setCol, h]

theorem entry_setCol_dfOfTable {R T : Type} (n nd : ℕ) (f : ℕ → ℕ → R)
    (a : String) (v : List (Cell R T)) (j t : ℕ) (dflt : Cell R T)
    (hj : j < nd) (ht : t < n) :
    (setCol (dfOfTable n nd f) (Label.str a) v).entry j t dflt = Cell.val (f t j) := by
  unfold PandasDF.entry
  rw [setCol_cols _ _ _ (dfOfTable_hasLabel_str n nd f a)]
  unfold dfOfTable
  rw [getD_append_lt _ _ _ _ (by simpa using hj)]
  rw [getD_range_map _ _ _ _ hj]
  exact getD_range_map _ _ _ _ ht

theorem labels_setCol_dfOfTable {R T : Type} (n nd : ℕ) (f : ℕ → ℕ → R)
    (v : List (Cell R T)) :
    (setCol (dfOfTable n nd f) (Label.str "time") v).labels
      = (List.range nd).map Label.nat ++ [Label.str "time"] := by
  unfold PandasDF.labels
  rw [setCol_cols _ _ _ (dfOfTable_hasLabel_str n nd f "time")]
  simp [dfOfTable, List.map_map, Function.comp]

theorem floor_two_fifths (n : ℕ) : ⌊(0.4 : ℚ) * n⌋ = ((2 * n) / 5 : ℕ) := by
  have h1 : (0.4 : ℚ) * n = ((2 * n : ℕ) : ℚ) / 5 := by push_cast; ring
  rw [h1, Int.floor_eq_iff]
  constructor
  · rw [le_div_iff (by norm_num : (0 : ℚ) < 5)]
    exact_mod_cast Nat.div_mul_le_self (2 * n) 5
  · rw [div_lt_iff (by norm_num : (0 : ℚ) < 5)]
    have : 2 * n < ((2 * n) / 5 + 1) * 5 := by omega
    push_cast
    exact_mod_cast this

theorem floor_seven_tenths (n : ℕ) : ⌊(0.7 : ℚ) * n⌋ = ((7 * n) / 10 : ℕ) := by
  have h1 : (0.7 : ℚ) * n = ((7 * n : ℕ) : ℚ) / 10 := by push_cast; ring
  rw [h1, Int.floor_eq_iff]
  constructor
  · rw [le_div_iff (by norm_num : (0 : ℚ) < 10)]
    exact_mod_cast Nat.div_mul_le_self (7 * n) 10
  · rw [div_lt_iff (by norm_num : (0 : ℚ) < 10)]
    have : 7 * n < ((7 * n) / 10 + 1) * 10 := by omega
    push_cast
    exact_mod_cast this

theorem gen_trend_fst_eq {R σ T : Type} [LinearOrderedField R] (rng : RNG R σ)
    (sig : R → R) (time : List T) (seasonality sm : R) (ndim : ℕ) (s0 : σ)
    (hlt : (2 * time.length) / 5 < (7 * time.length) / 10) :
    (gen_trend_data_ndim rng sig time seasonality sm ndim s0).1
      = some
          (⟨setCol
              (dfOfTable time.length ndim
                (fun i j =>
                  trendValue sig seasonality ((trendP1 rng ndim).1.getD j 0)
                    (-((trendP2 rng ndim).1.getD j 0)) ((trendP3 rng ndim).1.getD j 0)
                    ((trendP4 rng time.length ndim).1.getD j 0)
                    ((trendP5 rng time.length ndim).1.getD j []) i))
              (Label.str "time") (time.map Cell.stamp)⟩,
            (trendP4 rng time.length ndim).1) := by
  unfold gen_trend_data_ndim
  rw [if_pos hlt]

theorem take_map_prod (xs : List ℝ) (c : ℝ) :
    ∀ (m : ℕ), m ≤ xs.length →
      ((xs.take m).map (fun z => 1 + c * z)).prod
        = Finset.prod (Finset.range m) (fun k => 1 + c * xs.getD k 0) := by
  intro m
  induction m with
  | zero => intro _; simp
  | succ m ih =>
    intro h
    have hm : m < xs.length := by omega
    rw [List.take_succ, List.getElem?_eq_getElem hm]
    rw [List.map_append, List.prod_append, ih (by omega), Finset.prod_range_succ]
    simp [List.getElem?_eq_getElem hm]

theorem trendValue_eq_spec_value (init u slope cp : ℤ) (se : ℝ) (row : List ℝ) (t : ℕ)
    (h : t + 1 ≤ row.length) :
    trendValue expit se init (-u) slope cp row t = spec_value init slope (-u) cp se row t := by
  have h3 : (0.001 : ℝ) = 1 / 1000 := by norm_num
  unfold trendValue spec_value expit sigmoid
  rw [h3, take_map_prod row (1 / 1000 : ℝ) (t + 1) h]

/-- C2: on a successful call, the entry of the generated frame at dimension
`d` and zero-based step `t` equals the spec's closed-form value
`(initial + slope*t + trend_change*(t - change_point)*sigmoid(t - change_point))
* (1 - seasonality * weekend_indicator(t)) * cumulative_noise(t)` evaluated at
the generator's actual draws for dimension `d`: `initial` is the `d`-th entry
of the first batched draw (in `[9000, 10000)`), `trend_change` the negated
`d`-th entry of the second (the draw in `[0, 60)`), the slope the `d`-th
entry of the third (in `[2, 6)`), `change_point` the `d`-th returned change
point, and the noise stream the `d`-th row of the drawn standard-normal
matrix — all fixed per dimension, independent of `t`. -/
theorem gen_trend_value_formula {σ T : Type} (rng : RNG ℝ σ) (time : List T)
    (seasonality sm : ℝ) (ndim d t : ℕ) (s : σ)
    (hlt : (2 * time.length) / 5 < (7 * time.length) / 10)
    (hd : d < ndim) (ht : t < time.length) :
    ((trendFrame (gen_trend_data_ndim rng expit time seasonality sm ndim s).1).entry d t
          (Cell.val 0)
        = Cell.val
            (spec_value ((trendP1 rng ndim).1.getD d 0) ((trendP3 rng ndim).1.getD d 0)
              (-((trendP2 rng ndim).1.getD d 0))
              ((changePoints
                  (gen_trend_data_ndim rng expit time seasonality sm ndim s).1).getD d 0)
              seasonality ((trendP5 rng time.length ndim).1.getD d []) t))
    ∧ 9000 ≤ (trendP1 rng ndim).1.getD d 0 ∧ (trendP1 rng ndim).1.getD d 0 < 10000
    ∧ 0 ≤ (trendP2 rng ndim).1.getD d 0 ∧ (trendP2 rng ndim).1.getD d 0 < 60
    ∧ 2 ≤ (trendP3 rng ndim).1.getD d 0 ∧ (trendP3 rng ndim).1.getD d 0 < 6 := by
  refine ⟨?_, ?_, ?_, ?_, ?_, ?_, ?_⟩
  · rw [gen_trend_fst_eq rng expit time seasonality sm ndim s hlt]
    simp only [trendFrame, changePoints, Option.map_some', Option.getD_some]
    rw [entry_setCol_dfOfTable time.length ndim _ "time" _ d t _ hd ht]
    have hrow : ((trendP5 rng time.length ndim).1.getD d []).length = time.length := by
      unfold trendP5
      exact drawRandnMat_getD_length rng time.length ndim _ d hd
    exact congrArg Cell.val
      (trendValue_eq_spec_value _ _ _ _ seasonality _ t (by omega))
  · exact (drawIntVec_getD_mem rng (by norm_num) _ hd).1
  · exact (drawIntVec_getD_mem rng (by norm_num) _ hd).2
  · exact (drawIntVec_getD_mem rng (by norm_num) _ hd).1
  · exact (drawIntVec_getD_mem rng (by norm_num) _ hd).2
  · exact (drawIntVec_getD_mem rng (by norm_num) _ hd).1
  · exact (drawIntVec_getD_mem rng (by norm_num) _ hd).2

/-- C3: on a successful call, every change-point index returned by
`gen_trend_data_ndim` for a timestamp sequence of length `n` lies in
`[⌊0.4 n⌋, ⌊0.7 n⌋)`. -/
theorem gen_trend_change_point_range {R σ T : Type} [LinearOrderedField R]
    (rng : RNG R σ) (sig : R → R) (time : List T) (seasonality sm : R) (ndim : ℕ)
    (s : σ) (hlt : (2 * time.length) / 5 < (7 * time.length) / 10) :
    ∀ cp ∈ changePoints (gen_trend_data_ndim rng sig time seasonality sm ndim s).1,
      ⌊(0.4 : ℚ) * time.length⌋ ≤ cp ∧ cp < ⌊(0.7 : ℚ) * time.length⌋ := by
  intro cp hcp
  rw [gen_trend_fst_eq rng sig time seasonality sm ndim s hlt] at hcp
  simp only [changePoints, Option.map_some', Option.getD_some] at hcp
  unfold trendP4 at hcp
  have hlt' : (((2 * time.length) / 5 : ℕ) : ℤ) < (((7 * time.length) / 10 : ℕ) : ℤ) := by
    exact_mod_cast hlt
  have hmem := drawIntVec_mem rng hlt' ndim _ cp hcp
  rw [floor_two_fifths, floor_seven_tenths]
  exact hmem

theorem getD_append_last' {α : Type} (xs : List α) (y d : α) (k : ℕ)
    (hk : xs.length = k) : (xs ++ [y]).getD k d = y := by
  subst hk
  exact getD_append_last xs y d

/-- C5: for a nonempty timestamp list and positive `ndim`,
`gen_no_trend_data_ndim` returns a frame with `ndim` value columns plus the
`"time"` column; each value column is a constant column of length `n` whose
constant is an integer draw in `[0, 1000)`, and the `"time"` column holds the
input timestamps in order. -/
theorem gen_no_trend_flat {R σ T : Type} [LinearOrderedField R] (rng : RNG R σ)
    (time : List T) (ndim : ℕ) (s : σ) (hn : 0 < time.length) (hd : 0 < ndim) :
    ((gen_no_trend_data_ndim rng time ndim s).1.df.cols.length = ndim + 1)
    ∧ (∀ j, j < ndim → ∃ c : ℤ, 0 ≤ c ∧ c < 1000 ∧
        (gen_no_trend_data_ndim rng time ndim s).1.df.cols.getD j (Label.nat 0, [])
          = (Label.nat j, List.replicate time.length (Cell.val (c : R))))
    ∧ (gen_no_trend_data_ndim rng time ndim s).1.df.cols.getD ndim (Label.nat 0, [])
        = (Label.str "time", time.map Cell.stamp) := by
  have hcols : (gen_no_trend_data_ndim rng time ndim s).1.df.cols
      = (dfOfTable time.length ndim
            (fun _ j => (((drawIntVec rng 0 1000 ndim s).1.getD j 0 : ℤ) : R))
          : PandasDF (Cell R T)).cols
        ++ [(Label.str "time", time.map Cell.stamp)] :=
    setCol_cols _ _ _ (dfOfTable_hasLabel_str _ _ _ _)
  refine ⟨?_, ?_, ?_⟩
  · rw [hcols]
    simp [dfOfTable]
  · intro j hj
    refine ⟨(drawIntVec rng 0 1000 ndim s).1.getD j 0,
      (drawIntVec_getD_mem rng (by norm_num) s hj).1,
      (drawIntVec_getD_mem rng (by norm_num) s hj).2, ?_⟩
    rw [hcols, getD_append_lt _ _ _ _ (by simpa [dfOfTable] using hj)]
    unfold dfOfTable
    rw [getD_range_map _ _ _ _ hj, range_map_const]
  · rw [hcols]
    exact getD_append_last' _ _ _ ndim (by simp [dfOfTable])

/-- C10: both generators label the `ndim` value columns with the integers
`0 .. ndim-1` (the default positional labels) and append the `"time"` column
last, after all value columns. -/
theorem generators_column_labels {R σ T : Type} [LinearOrderedField R]
    (rng : RNG R σ) (sig : R → R) (time : List T) (seasonality sm : R) (ndim : ℕ)
    (s s' : σ) (hlt : (2 * time.length) / 5 < (7 * time.length) / 10) :
    (trendFrame (gen_trend_data_ndim rng sig time seasonality sm ndim s).1).labels
        = (List.range ndim).map Label.nat ++ [Label.str "time"]
    ∧ ((gen_no_trend_data_ndim rng time ndim s').1.df).labels
        = (List.range ndim).map Label.nat ++ [Label.str "time"] := by
  constructor
  · rw [gen_trend_fst_eq rng sig time seasonality sm ndim s hlt]
    simp only [trendFrame, Option.map_some', Option.getD_some]
    exact labels_setCol_dfOfTable _ _ _ _
  · exact labels_setCol_dfOfTable _ _ _ _

/-- C6: when the loaded air-passengers frame has exactly two columns,
`load_air_passengers` positionally renames them to `"time"` and `"y"`,
keeping the column data, and returns the `TimeSeriesData` wrapper of the
renamed frame when the flag is true and the renamed frame itself when the
flag is false. -/
theorem load_air_passengers_shape {C : Type} (env : String → PandasDF C)
    (h : (env "air_passengers.csv").cols.length = 2) :
    ∃ c0 c1 : List C,
      (env "air_passengers.csv").cols.map Prod.snd = [c0, c1]
      ∧ load_air_passengers env true
          = some (Sum.inl ⟨⟨[(Label.str "time", c0), (Label.str "y", c1)]⟩⟩)
      ∧ load_air_passengers env false
          = some (Sum.inr ⟨[(Label.str "time", c0), (Label.str "y", c1)]⟩) := by
  obtain ⟨a, b, hab⟩ := List.length_eq_two.mp h
  refine ⟨a.2, b.2, ?_, ?_, ?_⟩
  · simp [hab]
  · simp [load_air_passengers, load_data, setColumns, hab]
  · simp [load_air_passengers, load_data, setColumns, hab]

/-- C7: when the loaded air-passengers frame does not have exactly two
columns, the positional rename `df.columns = ["time", "y"]` fails and
`load_air_passengers` surfaces the failure (modelled by `none`) for either
value of the flag, with no recovery. -/
theorem load_air_passengers_mismatch {C : Type} (env : String → PandasDF C)
    (h : (env "air_passengers.csv").cols.length ≠ 2) (b : Bool) :
    load_air_passengers env b = none := by
  unfold load_air_passengers load_data setColumns
  rw [if_neg]
  intro hh
  exact h (by simpa using hh.symm)

/-- C8: `gen_no_trend_data_ndim` does not reseed the generator, so its output
is a function of the ambient generator state: for a contract-satisfying
generator, two calls with identical arguments but different prior states
differ, and a call made after a `gen_trend_data_ndim` call (which advances
the stream) differs from the call made on the original state. -/
theorem gen_no_trend_state_dependent :
    (gen_no_trend_data_ndim counterRng [()] 1 0).1
        ≠ (gen_no_trend_data_ndim counterRng [()] 1 1).1
    ∧ (gen_no_trend_data_ndim counterRng [()] 1
          ((gen_trend_data_ndim counterRng (fun x => x) threeUnits 0 5 1 0).2)).1
        ≠ (gen_no_trend_data_ndim counterRng [()] 1 0).1 :=
  ⟨by decide, by decide⟩

theorem gen_trend_value_formula_witness :
    (2 * threeUnits.length) / 5 < (7 * threeUnits.length) / 10
    ∧ (0 : ℕ) < 1 ∧ (0 : ℕ) < threeUnits.length
    ∧ (((trendFrame (gen_trend_data_ndim (constRng ℝ) expit threeUnits 0 5 1 ()).1).entry 0 0
            (Cell.val 0)
          = Cell.val
              (spec_value ((trendP1 (constRng ℝ) 1).1.getD 0 0)
                ((trendP3 (constRng ℝ) 1).1.getD 0 0) (-((trendP2 (constRng ℝ) 1).1.getD 0 0))
                ((changePoints
                    (gen_trend_data_ndim (constRng ℝ) expit threeUnits 0 5 1 ()).1).getD 0 0)
                0 ((trendP5 (constRng ℝ) threeUnits.length 1).1.getD 0 []) 0))
      ∧ 9000 ≤ (trendP1 (constRng ℝ) 1).1.getD 0 0
      ∧ (trendP1 (constRng ℝ) 1).1.getD 0 0 < 10000
      ∧ 0 ≤ (trendP2 (constRng ℝ) 1).1.getD 0 0 ∧ (trendP2 (constRng ℝ) 1).1.getD 0 0 < 60
      ∧ 2 ≤ (trendP3 (constRng ℝ) 1).1.getD 0 0 ∧ (trendP3 (constRng ℝ) 1).1.getD 0 0 < 6) :=
  ⟨by decide, by decide, by decide,
    gen_trend_value_formula (constRng ℝ) threeUnits 0 5 1 0 0 () (by decide) (by decide)
      (by decide)⟩

theorem gen_trend_change_point_range_witness :
    (2 * threeUnits.length) / 5 < (7 * threeUnits.length) / 10
    ∧ (1 : ℤ) ∈ changePoints
        (gen_trend_data_ndim (constRng ℚ) (fun x => x) threeUnits 0 5 1 ()).1
    ∧ ⌊(0.4 : ℚ) * threeUnits.length⌋ ≤ (1 : ℤ)
    ∧ (1 : ℤ) < ⌊(0.7 : ℚ) * threeUnits.length⌋ :=
  ⟨by decide, by decide,
    (gen_trend_change_point_range (constRng ℚ) (fun x => x) threeUnits 0 5 1 ()
        (by decide) 1 (by decide)).1,
    (gen_trend_change_point_range (constRng ℚ) (fun x => x) threeUnits 0 5 1 ()
        (by decide) 1 (by decide)).2⟩

theorem gen_no_trend_flat_witness :
    (0 : ℕ) < ([()] : List Unit).length ∧ (0 : ℕ) < 1
    ∧ (gen_no_trend_data_ndim (constRng ℚ) ([()] : List Unit) 1 ()).1.df.cols.length = 1 + 1
    ∧ (∃ c : ℤ, 0 ≤ c ∧ c < 1000 ∧
        (gen_no_trend_data_ndim (constRng ℚ) ([()] : List Unit) 1 ()).1.df.cols.getD 0
            (Label.nat 0, [])
          = (Label.nat 0, List.replicate ([()] : List Unit).length (Cell.val ((c : ℤ) : ℚ))))
    ∧ (gen_no_trend_data_ndim (constRng ℚ) ([()] : List Unit) 1 ()).1.df.cols.getD 1
          (Label.nat 0, [])
        = (Label.str "time", ([()] : List Unit).map Cell.stamp) :=
  ⟨by decide, by decide,
    (gen_no_trend_flat (constRng ℚ) [()] 1 () (by decide) (by decide)).1,
    (gen_no_trend_flat (constRng ℚ) [()] 1 () (by decide) (by decide)).2.1 0 (by decide),
    (gen_no_trend_flat (constRng ℚ) [()] 1 () (by decide) (by decide)).2.2⟩

theorem generators_column_labels_witness :
    (2 * threeUnits.length) / 5 < (7 * threeUnits.length) / 10
    ∧ (trendFrame
          (gen_trend_data_ndim (constRng ℚ) (fun x => x) threeUnits 0 5 1 ()).1).labels
        = (List.range 1).map Label.nat ++ [Label.str "time"]
    ∧ ((gen_no_trend_data_ndim (constRng ℚ) threeUnits 1 ()).1.df).labels
        = (List.range 1).map Label.nat ++ [Label.str "time"] :=
  ⟨by decide,
    (generators_column_labels (constRng ℚ) (fun x => x) threeUnits 0 5 1 () ()
        (by decide)).1,
    (generators_column_labels (constRng ℚ) (fun x => x) threeUnits 0 5 1 () ()
        (by decide)).2⟩

theorem load_air_passengers_shape_witness :
    (envTwo "air_passengers.csv").cols.length = 2
    ∧ ∃ c0 c1 : List (Cell ℚ Unit),
        (envTwo "air_passengers.csv").cols.map Prod.snd = [c0, c1]
        ∧ load_air_passengers envTwo true
            = some (Sum.inl ⟨⟨[(Label.str "time", c0), (Label.str "y", c1)]⟩⟩)
        ∧ load_air_passengers envTwo false
            = some (Sum.inr ⟨[(Label.str "time", c0), (Label.str "y", c1)]⟩) :=
  ⟨by decide, load_air_passengers_shape envTwo (by decide)⟩

theorem load_air_passengers_mismatch_witness :
    (envThree "air_passengers.csv").cols.length ≠ 2
    ∧ load_air_passengers envThree true = none :=
  ⟨by decide, load_air_passengers_mismatch envThree (by decide) true⟩
